import Mathlib

/-!
Shallow embedding of `src/CIFAR10_NN.py`, a single-file training script for a
three-layer feed-forward classifier.

Modelling conventions:
* Tensor entries are rationals (`ℚ`); linear layers and ReLU are exact over ℚ.
* `F.cross_entropy` (log-softmax based, transcendental) and the autograd /
  optimizer internals are external-library code, so they appear as explicit
  function parameters; everything the script itself does is defined concretely.
* Batches carry already-flattened image rows (`forward` starts with
  `xb.view(xb.size(0), -1)`, so the model only ever sees flattened rows).
* Stateful Python is translated to explicit state passing; the model's
  parameters are the only mutable state of the script.
-/

namespace CIFAR10NN

/-- Helper for `argmaxIdx`: scan the remaining scores, keeping the current
maximum `m` and the index `best` where it was first attained; `i` is the index
of the head of the remaining list.  A strictly larger score replaces the
current maximum, so ties keep the earliest index, matching `torch.max(·, dim=1)`
which returns the index of the first maximal value. -/
def argmaxGo : List ℚ → ℚ → ℕ → ℕ → ℕ
  | [], _, best, _ => best
  | s :: rest, m, best, i =>
    if m < s then argmaxGo rest s i (i + 1) else argmaxGo rest m best (i + 1)

/-- Index of the (first) maximal score in a row, the `preds` entry produced by
`_, preds = torch.max(outputs, dim=1)` in `accuracy` (line 32). -/
def argmaxIdx (scores : List ℚ) : ℕ :=
  match scores with
  | [] => 0
  | s :: rest => argmaxGo rest s 0 1

/-- Lines 31–33:
`accuracy(outputs, labels)` takes per-sample score rows and integer labels,
computes the arg-max prediction of each row, and returns
`torch.sum(preds == labels).item() / len(preds)` as a scalar. -/
def accuracy (outputs : List (List ℚ)) (labels : List ℕ) : ℚ :=
  let preds := outputs.map argmaxIdx
  ((preds.zip labels).countP (fun pr => pr.1 == pr.2) : ℚ) / (preds.length : ℚ)

/-- The number of samples whose arg-max score equals the label, stated
index-wise (the spec's "fraction of samples where arg-max score equals the
label", counted over sample positions). -/
def numArgmaxCorrect (outputs : List (List ℚ)) (labels : List ℕ) : ℕ :=
  (List.range outputs.length).countP
    (fun i => argmaxIdx (outputs.getD i []) == labels.getD i 0)

/-- One weight/bias pair, the state of a `nn.Linear` layer. -/
structure LinearLayer where
  weight : List (List ℚ)
  bias : List ℚ
deriving DecidableEq

/-- The parameter state of `CIFARModel` (lines 35–44): three linear layers
(in→hidden, hidden→hidden, hidden→classes). -/
structure CIFARModel where
  linear1 : LinearLayer
  linear2 : LinearLayer
  linear3 : LinearLayer
deriving DecidableEq

/-- Dot product of two equal-length vectors. -/
def dotProd (a b : List ℚ) : ℚ := (List.zipWith (· * ·) a b).sum

/-- `F.relu` on one entry. -/
def reluQ (x : ℚ) : ℚ := max x 0

/-- `nn.Linear` applied to one flattened input row: output entry `j` is
`⟪weight[j], row⟫ + bias[j]`. -/
def linearApply (l : LinearLayer) (row : List ℚ) : List ℚ :=
  List.zipWith (fun w b => dotProd w row + b) l.weight l.bias

/-- Lines 46–59, `CIFARModel.forward`: flatten, then
linear1 → ReLU → linear2 → ReLU → linear3, row by row over the batch.
(Rows arrive already flattened; see the module docstring.) -/
def forward (m : CIFARModel) (xb : List (List ℚ)) : List (List ℚ) :=
  xb.map (fun row =>
    let out := linearApply m.linear1 row
    let out := out.map reluQ
    let out := linearApply m.linear2 out
    let out := out.map reluQ
    linearApply m.linear3 out)

/-- A batch `(images, labels)`: flattened image rows and integer class labels. -/
structure Batch where
  images : List (List ℚ)
  labels : List ℕ
deriving DecidableEq

/-- The `{'val_loss': …, 'val_acc': …}` record returned by `validation_step`
and (after reduction) by `validation_epoch_end`/`evaluate`. -/
structure StepResult where
  val_loss : ℚ
  val_acc : ℚ
deriving DecidableEq

/-- The type of the external `F.cross_entropy` reduction: score rows and
labels to a scalar mean loss.  Kept abstract (it is library code, not part of
this repository, and is transcendental). -/
def CrossEntropyFn : Type := List (List ℚ) → List ℕ → ℚ

/-- Lines 61–65, `training_step`: forward the batch and return the
cross-entropy loss between the output scores and the labels. -/
def training_step (ce : CrossEntropyFn) (m : CIFARModel) (b : Batch) : ℚ :=
  ce (forward m b.images) b.labels

/-- Lines 67–72, `validation_step`: forward the batch, return the
cross-entropy loss and the accuracy as one record. -/
def validation_step (ce : CrossEntropyFn) (m : CIFARModel) (b : Batch) :
    StepResult :=
  let out := forward m b.images
  ⟨ce out b.labels, accuracy out b.labels⟩

/-- Lines 74–79, `validation_epoch_end`: stack per-batch losses and
accuracies and take their (unweighted) arithmetic means. -/
def validation_epoch_end (outputs : List StepResult) : StepResult :=
  let batch_losses := outputs.map StepResult.val_loss
  let epoch_loss := batch_losses.sum / (batch_losses.length : ℚ)
  let batch_accs := outputs.map StepResult.val_acc
  let epoch_acc := batch_accs.sum / (batch_accs.length : ℚ)
  ⟨epoch_loss, epoch_acc⟩

/-- Lines 133–135, `evaluate`: run `validation_step` on every batch of the
loader and reduce with `validation_epoch_end`. -/
def evaluate (ce : CrossEntropyFn) (m : CIFARModel) (loader : List Batch) :
    StepResult :=
  validation_epoch_end (loader.map (validation_step ce m))

/-- Explicit state threading for a list traversal: the translation of a Python
loop body that may reassign the object's state while collecting results. -/
def mapState {σ α β : Type} (f : σ → α → σ × β) : σ → List α → σ × List β
  | s, [] => (s, [])
  | s, a :: l =>
    let sb := f s a
    let rest := mapState f sb.1 l
    (rest.1, sb.2 :: rest.2)

/-- `validation_step` with the model state threaded explicitly: the method
only reads `self`, so the state component passes through unchanged. -/
def validation_stepS (ce : CrossEntropyFn) (m : CIFARModel) (b : Batch) :
    CIFARModel × StepResult :=
  (m, validation_step ce m b)

/-- `evaluate` with the model state threaded explicitly through every
`validation_step` call; returns the final model state with the reduced
result. -/
def evaluateS (ce : CrossEntropyFn) (m : CIFARModel) (loader : List Batch) :
    CIFARModel × StepResult :=
  let run := mapState (validation_stepS ce) m loader
  (run.1, validation_epoch_end run.2)

/-- The external autograd/optimizer interface used by the training loop,
with gradients of type `G` (library code, kept abstract):
`gradOf` is what `loss.backward()` computes — the gradient of the scalar loss
function at the current parameters; `accum` is gradient accumulation into the
existing `.grad` buffers; `zero` is the cleared-gradient state left by
`optimizer.zero_grad()`; `sgdStep` is one `torch.optim.SGD` parameter update
at a given learning rate from given gradients. -/
structure AutogradOps (G : Type) where
  gradOf : (CIFARModel → ℚ) → CIFARModel → G
  accum : G → G → G
  zero : G
  sgdStep : ℚ → CIFARModel → G → CIFARModel

/-- Lines 142–146, the training-phase loop body for one batch:
`loss = model.training_step(batch)`, `loss.backward()` (accumulate the
gradient of the loss at the current parameters), `optimizer.step()` (one SGD
update), `optimizer.zero_grad()` (clear the accumulated gradients).
The state is (parameters, accumulated gradients). -/
def trainBatch {G : Type} (ops : AutogradOps G) (ce : CrossEntropyFn)
    (lr : ℚ) (s : CIFARModel × G) (b : Batch) : CIFARModel × G :=
  let g := ops.accum s.2 (ops.gradOf (fun p => training_step ce p b) s.1)
  (ops.sgdStep lr s.1 g, ops.zero)

/-- One training phase: the batches of the training loader processed in
order, one `trainBatch` step each. -/
def trainEpoch {G : Type} (ops : AutogradOps G) (ce : CrossEntropyFn)
    (lr : ℚ) (s : CIFARModel × G) (tb : List Batch) : CIFARModel × G :=
  tb.foldl (trainBatch ops ce lr) s

/-- Lines 137–151, `fit(epochs, lr, model, train_loader, val_loader)`:
for each epoch run the training phase over all training batches, then one
validation `evaluate`, appending its result to the history; returns the final
(parameters, gradients) state together with the history list. -/
def fit {G : Type} (ops : AutogradOps G) (ce : CrossEntropyFn)
    (epochs : ℕ) (lr : ℚ) (s : CIFARModel × G) (tb vb : List Batch) :
    (CIFARModel × G) × List StepResult :=
  match epochs with
  | 0 => (s, [])
  | n + 1 =>
    let s1 := trainEpoch ops ce lr s tb
    let result := evaluate ce s1.1 vb
    let rest := fit ops ce n lr s1 tb vb
    (rest.1, result :: rest.2)

/-- Lines 159–166: the history starts with one baseline `evaluate` of the
freshly initialized model, then the training loop is called three times —
`fit(5, 0.5, …)`, `fit(25, 0.1, …)`, `fit(15, 0.05, …)` — each continuing
from the state left by the previous call, and the three histories are
appended to the baseline. -/
def runSchedule {G : Type} (ops : AutogradOps G) (ce : CrossEntropyFn)
    (s0 : CIFARModel × G) (tb vb : List Batch) :
    (CIFARModel × G) × List StepResult :=
  let baseline := evaluate ce s0.1 vb
  let f1 := fit ops ce 5 (1/2) s0 tb vb
  let f2 := fit ops ce 25 (1/10) f1.1 tb vb
  let f3 := fit ops ce 15 (1/20) f2.1 tb vb
  (f3.1, baseline :: (f1.2 ++ (f2.2 ++ f3.2)))

/-- The parameter dictionary produced by `model.state_dict()` (line 190):
one entry per layer weight and bias, keyed `linearN.weight` / `linearN.bias`;
modelled as a record with exactly those six entries. -/
structure StateDict where
  linear1_weight : List (List ℚ)
  linear1_bias : List ℚ
  linear2_weight : List (List ℚ)
  linear2_bias : List ℚ
  linear3_weight : List (List ℚ)
  linear3_bias : List ℚ
deriving DecidableEq

/-- `model.state_dict()`: read every parameter tensor out of the model. -/
def state_dict (m : CIFARModel) : StateDict :=
  ⟨m.linear1.weight, m.linear1.bias,
   m.linear2.weight, m.linear2.bias,
   m.linear3.weight, m.linear3.bias⟩

/-- The model whose parameters are exactly the dictionary's entries. -/
def modelOfStateDict (sd : StateDict) : CIFARModel :=
  ⟨⟨sd.linear1_weight, sd.linear1_bias⟩,
   ⟨sd.linear2_weight, sd.linear2_bias⟩,
   ⟨sd.linear3_weight, sd.linear3_bias⟩⟩

/-- Shape equality of two layers: same per-row weight lengths and same bias
length (what `load_state_dict` size-checks). -/
def sameShape (a b : LinearLayer) : Bool :=
  (a.weight.map List.length == b.weight.map List.length) &&
    (a.bias.length == b.bias.length)

/-- Architecture equality of two models: all three layers have equal shapes. -/
def sameArchitecture (m1 m2 : CIFARModel) : Bool :=
  sameShape m1.linear1 m2.linear1 && sameShape m1.linear2 m2.linear2 &&
    sameShape m1.linear3 m2.linear3

/-- Line 194, `model2.load_state_dict(torch.load(…))`: replace the freshly
constructed model's parameters by the dictionary's entries; fails (torch
raises) when the stored tensors' sizes do not match the receiving model's. -/
def load_state_dict (fresh : CIFARModel) (sd : StateDict) :
    Option CIFARModel :=
  if sameArchitecture (modelOfStateDict sd) fresh then
    some (modelOfStateDict sd)
  else
    none

/-- A linear congruential pseudo-random generator step.
Modelled from the spec: `torch.manual_seed(42)` (line 13) fixes the global
PRNG state, and the `nn.Linear` weight initialization drawn from it (library
code, not part of this repository) is a deterministic function of that state;
any concrete deterministic generator represents it faithfully for the
determinism property. -/
def lcg (x : ℕ) : ℕ := (1103515245 * x + 12345) % 2147483648

/-- Modelled from the spec: one pseudo-random parameter value derived
deterministically from the seed and the parameter's position. -/
def prngVal (seed i : ℕ) : ℚ :=
  ((lcg (seed + i)) % 2001 : ℕ) / 1000 - 1

/-- Modelled from the spec: a deterministically initialized weight matrix. -/
def initMatrix (seed rows cols : ℕ) : List (List ℚ) :=
  (List.range rows).map (fun i =>
    (List.range cols).map (fun j => prngVal seed (i * cols + j)))

/-- Modelled from the spec: a deterministically initialized bias vector. -/
def initVec (seed n : ℕ) : List ℚ :=
  (List.range n).map (fun j => prngVal seed j)

/-- `input_size = 1024` (line 84). -/
def input_size : ℕ := 1024

/-- `hidden_size = 128` (line 85). -/
def hidden_size : ℕ := 128

/-- `num_classes = 10` (line 86). -/
def num_classes : ℕ := 10

/-- Modelled from the spec: `CIFARModel(input_size, hidden_size, num_classes)`
constructed after `torch.manual_seed(seed)` — parameter initialization as a
deterministic function of the seed (lines 13 and 155). -/
def initParams (seed : ℕ) : CIFARModel :=
  ⟨⟨initMatrix seed hidden_size input_size, initVec (seed + 1) hidden_size⟩,
   ⟨initMatrix (seed + 2) hidden_size hidden_size,
    initVec (seed + 3) hidden_size⟩,
   ⟨initMatrix (seed + 4) num_classes hidden_size,
    initVec (seed + 5) num_classes⟩⟩

/-- Lines 155–159: the pre-training baseline — `evaluate` of the freshly
seeded, untrained model on the validation loader. -/
def baselineResult (ce : CrossEntropyFn) (seed : ℕ) (vb : List Batch) :
    StepResult :=
  evaluate ce (initParams seed) vb

/-- Lines 209–214: the `metrics` dictionary exactly as its value literals are
written in the source, key by key; the `test_loss` literal is transcribed
verbatim, trailing dot included. -/
def metricsRawEntries : List (String × String) :=
  [("val_acc", "0.4151"), ("val_loss", "1.6812"),
   ("test_acc", "0.4128"), ("test_loss", "1.6940.")]

/-- Well-formedness of a plain (unsigned, no-exponent) numeric literal, as in
the Python float/JSON number grammar restricted to the forms appearing here:
at least one digit, at most one decimal point, no other characters.
`1.6940.` fails this (two dots), which is why line 213 is a syntax error. -/
def isWellFormedNumLit (s : String) : Bool :=
  let cs := s.toList
  cs.any Char.isDigit &&
    cs.all (fun c => Char.isDigit c || c == '.') &&
    (cs.countP (fun c => c == '.')) ≤ 1

/-- A batch of data as `to_device` sees it: a tensor, or a list/tuple of
nested such data (lines 104–108 recurse through lists and tuples). `T` is the
abstract tensor type. -/
inductive TData (T : Type) where
  | tensor : T → TData T
  | group : List (TData T) → TData T

mutual

/-- Lines 104–108, `to_device(data, device)`: recursively move every tensor
of the (possibly nested) data to the device; `move` is the external
`data.to(device, non_blocking=True)`. `D` is the abstract device type. -/
def to_device {T D : Type} (move : T → D → T) : TData T → D → TData T
  | .tensor t, dev => .tensor (move t dev)
  | .group xs, dev => .group (to_deviceList move xs dev)

/-- `to_device` mapped over the elements of a list/tuple
(`[to_device(x, device) for x in data]`). -/
def to_deviceList {T D : Type} (move : T → D → T) :
    List (TData T) → D → List (TData T)
  | [], _ => []
  | x :: xs, dev => to_device move x dev :: to_deviceList move xs dev

end

/-- Lines 113–127, `DeviceDataLoader`: a wrapper holding the underlying
loader (its finite batch stream) and the target device. -/
structure DeviceDataLoader (T D : Type) where
  dl : List (TData T)
  device : D

/-- Lines 119–123, `DeviceDataLoader.__iter__`: yield each batch of the
underlying loader, in order, moved to the device. -/
def ddlIter {T D : Type} (move : T → D → T) :
    List (TData T) → D → List (TData T)
  | [], _ => []
  | b :: bs, dev => to_device move b dev :: ddlIter move bs dev

/-- Lines 125–127, `DeviceDataLoader.__len__`: the underlying loader's
length. -/
def ddlLen {T D : Type} (w : DeviceDataLoader T D) : ℕ := w.dl.length

/-! Concrete objects used by the witness theorems. -/

/-- A concrete stand-in for `F.cross_entropy` used in witnesses. -/
def ceEx : CrossEntropyFn :=
  fun out labels => (out.map List.sum).sum + (labels.length : ℚ)

/-- A concrete one-unit-per-layer model used in witnesses. -/
def mEx : CIFARModel :=
  ⟨⟨[[1]], [0]⟩, ⟨[[2]], [1]⟩, ⟨[[1]], [0]⟩⟩

/-- A second concrete model with the same architecture as `mEx` but other
parameter values, standing for the freshly constructed `model2`. -/
def freshEx : CIFARModel :=
  ⟨⟨[[5]], [7]⟩, ⟨[[3]], [2]⟩, ⟨[[4]], [1]⟩⟩

/-- A concrete one-sample batch used in witnesses. -/
def bEx : Batch := ⟨[[1]], [0]⟩

/-- Concrete 4-sample score rows: arg-max indices are 1, 0, 2, 1. -/
def exOutputs : List (List ℚ) :=
  [[0, 5, 1], [3, 2, 1], [1, 1, 9], [2, 8, 0]]

/-- Concrete labels for `exOutputs`: samples 0, 1, 2 are arg-max-correct,
sample 3 is not. -/
def exLabels : List ℕ := [1, 0, 2, 0]

/-! ## Helper lemmas -/

/-- Counting matching (prediction, label) pairs over the zipped lists equals
counting the sample positions whose arg-max equals the label. -/
theorem countP_zip_range (os : List (List ℚ)) :
    ∀ ls : List ℕ, os.length = ls.length →
      ((os.map argmaxIdx).zip ls).countP (fun pr => pr.1 == pr.2)
        = (List.range os.length).countP
            (fun i => argmaxIdx (os.getD i []) == ls.getD i 0) := by
  induction os with
  | nil => intro ls _; simp
  | cons o os ih =>
    intro ls h
    cases ls with
    | nil => simp at h
    | cons l ls =>
      simp only [List.map_cons, List.zip_cons_cons, List.countP_cons,
        List.length_cons, List.range_succ_eq_map, List.countP_map]
      rw [ih ls (by simpa using h)]
      simp [Function.comp_def, List.getD_cons_succ, List.getD_cons_zero]

/-- Threading the model state through `validation_step` calls never changes
it: each call only reads the model. -/
theorem mapState_validation (ce : CrossEntropyFn) :
    ∀ (l : List Batch) (m : CIFARModel),
      mapState (validation_stepS ce) m l
        = (m, l.map (validation_step ce m)) := by
  intro l
  induction l with
  | nil => intro m; rfl
  | cons b l ih => intro m; simp [mapState, validation_stepS, ih]

/-- The history returned by `fit` has one entry per epoch. -/
theorem fit_snd_length {G : Type} (ops : AutogradOps G) (ce : CrossEntropyFn)
    (n : ℕ) (lr : ℚ) (tb vb : List Batch) :
    ∀ s : CIFARModel × G, (fit ops ce n lr s tb vb).2.length = n := by
  induction n with
  | zero => intro s; rfl
  | succ n ih => intro s; simp [fit, ih]

/-- The state returned by `fit` is the `n`-fold iterate of one training
epoch. -/
theorem fit_fst_iterate {G : Type} (ops : AutogradOps G) (ce : CrossEntropyFn)
    (n : ℕ) (lr : ℚ) (tb vb : List Batch) :
    ∀ s : CIFARModel × G,
      (fit ops ce n lr s tb vb).1
        = (fun t => trainEpoch ops ce lr t tb)^[n] s := by
  induction n with
  | zero => intro s; rfl
  | succ n ih =>
    intro s
    simp only [fit, ih (trainEpoch ops ce lr s tb)]
    rw [Function.iterate_succ_apply]

/-- The history returned by `fit` is, entry by entry, the validation
evaluation of the parameters after each successive training epoch. -/
theorem fit_snd_map {G : Type} (ops : AutogradOps G) (ce : CrossEntropyFn)
    (n : ℕ) (lr : ℚ) (tb vb : List Batch) :
    ∀ s : CIFARModel × G,
      (fit ops ce n lr s tb vb).2
        = (List.range n).map (fun i =>
            evaluate ce (((fun t => trainEpoch ops ce lr t tb)^[i + 1] s).1)
              vb) := by
  induction n with
  | zero => intro s; rfl
  | succ n ih =>
    intro s
    simp only [fit, ih (trainEpoch ops ce lr s tb), List.range_succ_eq_map,
      List.map_cons, List.map_map]
    simp [Function.comp_def, Function.iterate_succ_apply,
      Nat.succ_eq_add_one]

/-! ## Claims -/

/-- C1: for every pair of equal-length, non-empty batches,
`accuracy(outputs, labels)` is the fraction of samples whose arg-max score
equals the label, it lies in `[0, 1]`, and on the fixed 4-sample batch with
exactly 3 arg-max-correct samples it equals `0.75`. -/
theorem claim_C1 :
    (∀ (outs : List (List ℚ)) (labs : List ℕ),
        outs ≠ [] → outs.length = labs.length →
          accuracy outs labs
              = (numArgmaxCorrect outs labs : ℚ) / (outs.length : ℚ)
            ∧ 0 ≤ accuracy outs labs ∧ accuracy outs labs ≤ 1)
      ∧ numArgmaxCorrect exOutputs exLabels = 3
      ∧ accuracy exOutputs exLabels = 3 / 4 := by
  refine ⟨?_, by decide, ?_⟩
  · intro outs labs hne hlen
    have hcast :
        accuracy outs labs
          = (((outs.map argmaxIdx).zip labs).countP
                (fun pr => pr.1 == pr.2) : ℚ) / (outs.length : ℚ) := by
      simp [accuracy]
    have hcount := countP_zip_range outs labs hlen
    have hacc :
        accuracy outs labs
          = (numArgmaxCorrect outs labs : ℚ) / (outs.length : ℚ) := by
      rw [hcast, hcount]; rfl
    have hlpos : 0 < outs.length := List.length_pos.mpr hne
    refine ⟨hacc, ?_, ?_⟩
    · rw [hacc]
      apply div_nonneg (by positivity) (by positivity)
    · rw [hacc, div_le_one (by exact_mod_cast hlpos)]
      have hle : numArgmaxCorrect outs labs ≤ outs.length := by
        unfold numArgmaxCorrect
        calc (List.range outs.length).countP
              (fun i => argmaxIdx (outs.getD i []) == labs.getD i 0)
            ≤ (List.range outs.length).length := List.countP_le_length _
          _ = outs.length := List.length_range _
      exact_mod_cast hle
  · have h1 : ((exOutputs.map argmaxIdx).zip exLabels).countP
        (fun pr => pr.1 == pr.2) = 3 := by decide
    have h2 : (exOutputs.map argmaxIdx).length = 4 := by decide
    simp only [accuracy]
    rw [h1, h2]
    norm_num

/-- C2: each `fit` epoch processes the training batches in order, each batch
doing one cross-entropy loss, one gradient propagation, one optimizer step
and one gradient clearing; after the training phase exactly one validation
evaluation is appended to the history, so the history has length `epochs`. -/
theorem claim_C2 {G : Type} (ops : AutogradOps G) (ce : CrossEntropyFn)
    (n : ℕ) (lr : ℚ) (s0 : CIFARModel × G) (tb vb : List Batch) :
    (∀ m b, training_step ce m b = ce (forward m b.images) b.labels)
    ∧ (∀ (s : CIFARModel × G) (b : Batch),
        trainBatch ops ce lr s b
          = (ops.sgdStep lr s.1
              (ops.accum s.2 (ops.gradOf (fun p => training_step ce p b) s.1)),
             ops.zero))
    ∧ trainEpoch ops ce lr s0 tb = tb.foldl (trainBatch ops ce lr) s0
    ∧ (fit ops ce n lr s0 tb vb).1
        = (fun t => trainEpoch ops ce lr t tb)^[n] s0
    ∧ (fit ops ce n lr s0 tb vb).2
        = (List.range n).map (fun i =>
            evaluate ce (((fun t => trainEpoch ops ce lr t tb)^[i + 1] s0).1)
              vb)
    ∧ (fit ops ce n lr s0 tb vb).2.length = n :=
  ⟨fun _ _ => rfl, fun _ _ => rfl, rfl,
    fit_fst_iterate ops ce n lr tb vb s0,
    fit_snd_map ops ce n lr tb vb s0,
    fit_snd_length ops ce n lr tb vb s0⟩

/-- C3: on a non-empty list of validation batches, `evaluate` returns the
arithmetic mean of the per-batch losses and the arithmetic mean of the
per-batch accuracies, each batch weighted equally. -/
theorem claim_C3 (ce : CrossEntropyFn) (m : CIFARModel)
    (loader : List Batch) (hne : loader ≠ []) :
    (evaluate ce m loader).val_loss
        = (loader.map (fun b => (validation_step ce m b).val_loss)).sum
            / (loader.length : ℚ)
    ∧ (evaluate ce m loader).val_acc
        = (loader.map (fun b => (validation_step ce m b).val_acc)).sum
            / (loader.length : ℚ) := by
  constructor <;>
    simp [evaluate, validation_epoch_end, List.map_map, Function.comp_def]

/-- C3 witness: a concrete one-batch loader instantiates the hypothesis. -/
theorem claim_C3_witness :
    [bEx] ≠ ([] : List Batch)
    ∧ ((evaluate ceEx mEx [bEx]).val_loss
          = ([bEx].map (fun b => (validation_step ceEx mEx b).val_loss)).sum
              / (([bEx] : List Batch).length : ℚ)
      ∧ (evaluate ceEx mEx [bEx]).val_acc
          = ([bEx].map (fun b => (validation_step ceEx mEx b).val_acc)).sum
              / (([bEx] : List Batch).length : ℚ)) :=
  ⟨by simp, claim_C3 ceEx mEx [bEx] (by simp)⟩

/-- C4: `evaluate`, run with the model state threaded explicitly, leaves
every parameter (all three weight matrices and bias vectors) unchanged and
returns the single reduced result. -/
theorem claim_C4 (ce : CrossEntropyFn) (m : CIFARModel)
    (loader : List Batch) :
    (evaluateS ce m loader).1 = m
    ∧ (evaluateS ce m loader).1.linear1.weight = m.linear1.weight
    ∧ (evaluateS ce m loader).1.linear1.bias = m.linear1.bias
    ∧ (evaluateS ce m loader).1.linear2.weight = m.linear2.weight
    ∧ (evaluateS ce m loader).1.linear2.bias = m.linear2.bias
    ∧ (evaluateS ce m loader).1.linear3.weight = m.linear3.weight
    ∧ (evaluateS ce m loader).1.linear3.bias = m.linear3.bias
    ∧ (evaluateS ce m loader).2 = evaluate ce m loader := by
  have h := mapState_validation ce loader m
  simp [evaluateS, h, evaluate]

/-- C5: the training loop is invoked exactly three times, with epoch counts
and learning rates `(5, 0.5)`, `(25, 0.1)`, `(15, 0.05)`, each continuing
from the state left by the previous call; the final history is the baseline
evaluation followed by the three histories concatenated in order,`1 + 5 +
25 + 15 = 46` entries in all. -/
theorem claim_C5 {G : Type} (ops : AutogradOps G) (ce : CrossEntropyFn)
    (s0 : CIFARModel × G) (tb vb : List Batch) :
    runSchedule ops ce s0 tb vb
        = (let f1 := fit ops ce 5 (1/2) s0 tb vb
           let f2 := fit ops ce 25 (1/10) f1.1 tb vb
           let f3 := fit ops ce 15 (1/20) f2.1 tb vb
           (f3.1, evaluate ce s0.1 vb :: (f1.2 ++ (f2.2 ++ f3.2))))
    ∧ (runSchedule ops ce s0 tb vb).2.length = 46 := by
  refine ⟨rfl, ?_⟩
  simp only [runSchedule, List.length_cons, List.length_append,
    fit_snd_length]

/-- C6: `fit` with `epochs = 0` leaves the model state (in particular the
parameters) unchanged and returns an empty history, so the baseline entry
followed by a 0-epoch fit's history is exactly the baseline entry. -/
theorem claim_C6 {G : Type} (ops : AutogradOps G) (ce : CrossEntropyFn)
    (lr : ℚ) (s0 : CIFARModel × G) (tb vb : List Batch) :
    fit ops ce 0 lr s0 tb vb = (s0, [])
    ∧ (fit ops ce 0 lr s0 tb vb).1.1 = s0.1
    ∧ evaluate ce s0.1 vb :: (fit ops ce 0 lr s0 tb vb).2
        = [evaluate ce s0.1 vb] :=
  ⟨rfl, rfl, rfl⟩

/-- C7: saving a model's parameter dictionary and loading it into a freshly
constructed model of identical architecture succeeds and reproduces the
original parameters exactly, so evaluation on any held-out loader returns
identical metrics. -/
theorem claim_C7 (ce : CrossEntropyFn) (m fresh : CIFARModel)
    (h : sameArchitecture m fresh = true) :
    load_state_dict fresh (state_dict m) = some m
    ∧ ∀ loader : List Batch,
        evaluate ce ((load_state_dict fresh (state_dict m)).getD fresh)
            loader
          = evaluate ce m loader := by
  have hmodel : modelOfStateDict (state_dict m) = m := rfl
  have hl : load_state_dict fresh (state_dict m) = some m := by
    unfold load_state_dict
    rw [hmodel, if_pos h]
  exact ⟨hl, fun loader => by rw [hl, Option.getD_some]⟩

/-- C7 witness: two concrete models of identical architecture. -/
theorem claim_C7_witness :
    sameArchitecture mEx freshEx = true
    ∧ load_state_dict freshEx (state_dict mEx) = some mEx
    ∧ evaluate ceEx ((load_state_dict freshEx (state_dict mEx)).getD freshEx)
          [bEx]
        = evaluate ceEx mEx [bEx] :=
  ⟨by decide, (claim_C7 ceEx mEx freshEx (by decide)).1,
    (claim_C7 ceEx mEx freshEx (by decide)).2 [bEx]⟩

/-- C8: with a fixed parameter-initialization seed, the pre-training
baseline evaluation is deterministic — two runs from the same seed and the
same validation data produce the same result. -/
theorem claim_C8 (ce : CrossEntropyFn) (seed1 seed2 : ℕ)
    (vb1 vb2 : List Batch) (hseed : seed1 = seed2) (hdata : vb1 = vb2) :
    baselineResult ce seed1 vb1 = baselineResult ce seed2 vb2 := by
  rw [hseed, hdata]

/-- C8 witness: the seed `42` of line 13 with a concrete validation
loader. -/
theorem claim_C8_witness :
    (42 : ℕ) = 42 ∧ ([bEx] : List Batch) = [bEx]
    ∧ baselineResult ceEx 42 [bEx] = baselineResult ceEx 42 [bEx] :=
  ⟨rfl, rfl, claim_C8 ceEx 42 42 [bEx] [bEx] rfl rfl⟩

/-- C9 (code-bug evidence): the metrics record has exactly the four claimed
keys, but its `test_loss` value literal, transcribed verbatim from line 213,
is `1.6940.` — not a well-formed numeric literal (two decimal points), so
the record as written is a syntax error and the claimed JSON object is never
produced.  The other three values are well-formed. -/
theorem claim_C9 :
    metricsRawEntries.map Prod.fst
        = ["val_acc", "val_loss", "test_acc", "test_loss"]
    ∧ isWellFormedNumLit "0.4151" = true
    ∧ isWellFormedNumLit "1.6812" = true
    ∧ isWellFormedNumLit "0.4128" = true
    ∧ isWellFormedNumLit "1.6940." = false
    ∧ metricsRawEntries.all (fun e => isWellFormedNumLit e.2) = false := by
  refine ⟨rfl, ?_, ?_, ?_, ?_, ?_⟩ <;> decide

/-- The mapped form of `to_deviceList`. -/
theorem to_deviceList_eq_map {T D : Type} (move : T → D → T) (dev : D) :
    ∀ l : List (TData T),
      to_deviceList move l dev = l.map (fun x => to_device move x dev) := by
  intro l
  induction l with
  | nil => rfl
  | cons x xs ih => simp [to_deviceList, ih]

/-- The mapped form of `ddlIter`. -/
theorem ddlIter_eq_map {T D : Type} (move : T → D → T) (dev : D) :
    ∀ l : List (TData T),
      ddlIter move l dev = l.map (fun b => to_device move b dev) := by
  intro l
  induction l with
  | nil => rfl
  | cons b bs ih => simp [ddlIter, ih]

/-- C10: wrapping a loader in `DeviceDataLoader` preserves the batch
stream — the wrapper's length equals the underlying loader's length, and
its `i`-th yielded batch is exactly the underlying `i`-th batch moved to the
device (no batch dropped, duplicated or reordered). -/
theorem claim_C10 {T D : Type} (move : T → D → T)
    (w : DeviceDataLoader T D) :
    (ddlIter move w.dl w.device).length = ddlLen w
    ∧ ∀ i : ℕ,
        (ddlIter move w.dl w.device)[i]?
          = (w.dl[i]?).map (fun b => to_device move b w.device) := by
  rw [ddlIter_eq_map move w.device w.dl]
  constructor
  · simp [ddlLen]
  · intro i
    exact List.getElem?_map _ _ _

/-- C1 witness: the 4-sample scenario instantiates every hypothesis. -/
theorem claim_C1_witness :
    exOutputs ≠ [] ∧ exOutputs.length = exLabels.length ∧
      (accuracy exOutputs exLabels
          = (numArgmaxCorrect exOutputs exLabels : ℚ) / (exOutputs.length : ℚ)
        ∧ 0 ≤ accuracy exOutputs exLabels
        ∧ accuracy exOutputs exLabels ≤ 1) :=
  ⟨by decide, by decide,
    claim_C1.1 exOutputs exLabels (by decide) (by decide)⟩

end CIFAR10NN
